import Mathlib

/-!
Shallow embedding of the explicit-implementation library
(src/explicit_implementation/interface.py and decorators.py).

Function objects and class objects live in a global store `Env`:
`FuncId`/`ClassId` are indices into `Env.funcs`/`Env.classes`.  Python
dicts are association lists with insertion-order semantics (`List.lookup`
for reads, `dinsert` replaces in place or appends), Python sets of
function objects are deduplicated lists (`List.dedup`; Python set
iteration order is unspecified, so only membership, emptiness and
single-occurrence erasure are relied upon).  All Python errors raised by
this library are `TypeError` or `AttributeError`; they are modelled with
their exact message strings.
-/

/-- The apostrophe character used by the source's f-string messages. -/
def apos : String := (Char.ofNat 39).toString

/-- Wrap a name in apostrophes, as the source's f-strings do. -/
def pyq (s : String) : String := apos ++ s ++ apos

/-- A Python function object, as this library observes it: its
`__name__`, its `__isabstractmethod__` flag, its
`__explicit_implementation_for__` attribute (set by `implements`) and
its `__declaring_interface__` attribute (stamped by `InterfaceMeta.__new__`). -/
structure FuncObj where
  fname : String
  isAbstract : Bool
  implFor : Option Nat
  declIface : Option Nat
deriving DecidableEq

/-- A class produced by `InterfaceMeta.__new__`: its name, bases, the
namespace that survived marker removal, and the two attached registries
`__explicit__specifications__` (outstanding abstract identities) and
`__explicit__implementations__` (interface -> identity -> implementation). -/
structure ClassObj where
  cname : String
  bases : List Nat
  namespaceAttrs : List (String × Nat)
  specs : List Nat
  registry : List (Nat × List (Nat × Nat))
deriving DecidableEq

/-- The store of all function and class objects. -/
structure Env where
  funcs : List FuncObj
  classes : List ClassObj
deriving DecidableEq

/-- Python errors raised by the library (all are TypeError or
AttributeError, carrying the message / attribute name). -/
inductive PyError where
  | typeError (msg : String)
  | attributeError (attr : String)
deriving DecidableEq

deriving instance DecidableEq for Except

/-- Dict write: replace the value at an existing key in place, else append. -/
def dinsert {α : Type} (d : List (Nat × α)) (k : Nat) (v : α) : List (Nat × α) :=
  match d with
  | [] => [(k, v)]
  | (k₁, v₁) :: rest => if k₁ = k then (k, v) :: rest else (k₁, v₁) :: dinsert rest k v

def fnameOf (env : Env) (f : Nat) : String :=
  ((env.funcs[f]?).map FuncObj.fname).getD ""

def cnameOf (env : Env) (c : Nat) : String :=
  ((env.classes[c]?).map ClassObj.cname).getD ""

def specsOf (env : Env) (c : Nat) : List Nat :=
  ((env.classes[c]?).map ClassObj.specs).getD []

def registryOf (env : Env) (c : Nat) : List (Nat × List (Nat × Nat)) :=
  ((env.classes[c]?).map ClassObj.registry).getD []

/-- The `__declaring_interface__` attribute of a function object
(`none` models the attribute being absent). -/
def declIfaceOfD (env : Env) (f : Nat) : Option Nat :=
  (((env.funcs[f]?).map FuncObj.declIface)).getD none

/-- Error messages of interface.py, transcribed verbatim. -/
def notImplMsg (clsName ifaceName : String) : String :=
  "Class " ++ clsName ++ " does not implement interface " ++ ifaceName

def expectedIfaceMsg (t : String) : String :=
  "Expected an interface type, got " ++ t

def missingImplMsg (clsName attr ifaceName : String) : String :=
  "Class " ++ clsName ++ " does not provide an explicit implementation for method "
    ++ pyq attr ++ " of interface " ++ ifaceName

def unknownTargetMsg (attrName targetName newName : String) : String :=
  "Method " ++ pyq attrName ++ " is marked as an explicit implementation for method "
    ++ pyq targetName ++ ", which is not an abstract method of any base interface of "
    ++ pyq newName

def conflictMsg (env : Env) (mo : List Nat) (newName : String) : String :=
  "Methods " ++ String.intercalate ", " (mo.map (fun m => pyq (fnameOf env m)))
    ++ " are marked as explicit implementations for methods of multiple base interfaces of "
    ++ pyq newName

def incompleteMsg (env : Env) (newName : String) (specs : List Nat) : String :=
  "Concrete class " ++ pyq newName
    ++ " does not provide explicit implementations for all abstract methods: "
    ++ String.intercalate ", " (specs.map (fnameOf env))

/-- decorators.py, `implements`: sets
`implementation_method.__explicit_implementation_for__ = interface_method`
on the implementing function object in place and returns that same object. -/
def implements (env : Env) (interfaceMethod implementationMethod : Nat) : Env × Nat :=
  match env.funcs[implementationMethod]? with
  | none => (env, implementationMethod)
  | some f =>
    ({ env with
        funcs := env.funcs.set implementationMethod { f with implFor := some interfaceMethod } },
      implementationMethod)

/-- `issubclass` over declared bases (reflexive-transitive), fuel-bounded
by the number of classes (base ids always precede the subclass id). -/
def issubAux : Nat → Env → Nat → Nat → Bool
  | 0, _, sub, sup => sub == sup
  | fuel + 1, env, sub, sup =>
    sub == sup ||
      (match env.classes[sub]? with
       | none => false
       | some c => c.bases.any (fun b => issubAux fuel env b sup))

def issubclassB (env : Env) (sub sup : Nat) : Bool :=
  issubAux (env.classes.length + 1) env sub sup

/-- Class attribute lookup (`getattr` on a class): own namespace first,
then bases left to right, depth first.  CPython resolves through the C3
MRO; for hierarchies without ambiguous same-name overrides along
different paths (all hierarchies in this development) the two agree. -/
def cgaAux : Nat → Env → Nat → String → Option Nat
  | 0, _, _, _ => none
  | fuel + 1, env, cid, attr =>
    match env.classes[cid]? with
    | none => none
    | some c =>
      match List.lookup attr c.namespaceAttrs with
      | some f => some f
      | none => c.bases.findSome? (fun b => cgaAux fuel env b attr)

def classGetattr (env : Env) (cid : Nat) (attr : String) : Option Nat :=
  cgaAux (env.classes.length + 1) env cid attr

/-- `getattr(instance, name)`: instances carry no instance dict in this
library's tests of interest, so the lookup goes through the instance's
class (descriptor binding is left representational). -/
def getattrOnInstance (env : Env) (clsId : Nat) (attr : String) : Except PyError Nat :=
  match classGetattr env clsId attr with
  | some f => .ok f
  | none => .error (.attributeError attr)

/-- InterfaceMeta.__new__, lines 13-29: the specification set computed
before marker consumption — every base's `__explicit__specifications__`
extended with the body's own abstract callables, then collapsed to a set. -/
def definedAbstract (env : Env) (ns : List (String × Nat)) : List Nat :=
  (ns.filter (fun p => ((env.funcs[p.2]?).map FuncObj.isAbstract).getD false)).map Prod.snd

def computedSpecs (env : Env) (bases : List Nat) (ns : List (String × Nat)) : List Nat :=
  (bases.foldl (fun acc b => acc ++ specsOf env b) [] ++ definedAbstract env ns).dedup

/-- State threaded through the registry merge: the merged
`inherited_implementations` dict and the `multiple_overrides` list. -/
structure MergeState where
  reg : List (Nat × List (Nat × Nat))
  mo : List Nat
deriving DecidableEq

/-- InterfaceMeta.__new__, lines 49-56: merge one
(specification, implementation) pair of one interface entry.  Note the
source's membership tests are against the *implementation* (line 50 and
line 53, the latter against the dict's keys, which are specifications). -/
def mergeOnePair (st : MergeState) (ifaceId : Nat) (p : Nat × Nat) : MergeState :=
  if p.2 ∈ st.mo then st
  else
    let inner := (List.lookup ifaceId st.reg).getD []
    let mo₂ := if (List.lookup p.2 inner).isSome then st.mo ++ [p.2] else st.mo
    { reg := dinsert st.reg ifaceId (dinsert inner p.1 p.2), mo := mo₂ }

/-- InterfaceMeta.__new__, lines 33-56: merge one base's registry.  A base
with a non-empty specification set gets its entry (re)assigned to a fresh
empty dict first (line 43 is an unconditional assignment). -/
def mergeBase (env : Env) (st : MergeState) (baseId : Nat) : MergeState :=
  match env.classes[baseId]? with
  | none => st
  | some b =>
    let st₁ := if b.specs ≠ [] then { st with reg := dinsert st.reg baseId [] } else st
    b.registry.foldl
      (fun s₂ ip =>
        let s₃ :=
          if (List.lookup ip.1 s₂.reg).isSome then s₂
          else { s₂ with reg := dinsert s₂.reg ip.1 [] }
        ip.2.foldl (fun s₄ p => mergeOnePair s₄ ip.1 p) s₃)
      st₁

def mergedState (env : Env) (bases : List Nat) : MergeState :=
  bases.foldl (mergeBase env) ⟨[], []⟩

/-- InterfaceMeta.__new__, lines 58-83: consume the body's implementation
markers in namespace order.  For a marked callable the target's
`__declaring_interface__` is read first (an absent attribute is an
uncaught AttributeError, line 68); then the target must still be in the
outstanding specification set, else TypeError (lines 70-73); then the
implementation is recorded under the declaring interface and the marker
name queued for removal. -/
def consumeMarkers (env : Env) (newName : String) :
    List (String × Nat) → List Nat → MergeState → List String →
    Except PyError (List Nat × MergeState × List String)
  | [], specs, st, removed => .ok (specs, st, removed)
  | (attrName, fid) :: rest, specs, st, removed =>
    match env.funcs[fid]? with
    | none => consumeMarkers env newName rest specs st removed
    | some fobj =>
      match fobj.implFor with
      | none => consumeMarkers env newName rest specs st removed
      | some target =>
        match (env.funcs[target]?).map FuncObj.declIface with
        | none => .error (.attributeError "__declaring_interface__")
        | some none => .error (.attributeError "__declaring_interface__")
        | some (some decl) =>
          if target ∈ specs then
            let inner := (List.lookup decl st.reg).getD []
            consumeMarkers env newName rest (specs.erase target)
              { reg := dinsert st.reg decl (dinsert inner target fid),
                mo := if target ∈ st.mo then st.mo.erase target else st.mo }
              (removed ++ [attrName])
          else
            .error (.typeError (unknownTargetMsg attrName
              (((env.funcs[target]?).map FuncObj.fname).getD "") newName))

/-- InterfaceMeta.__new__, lines 89-101: strip consumed markers from the
namespace, create the class object, stamp `__declaring_interface__` on
the body's own abstract methods, and attach the finalized specification
set and registry. -/
def finalizeEnv (env : Env) (newName : String) (bases : List Nat)
    (ns : List (String × Nat)) (specs₂ : List Nat) (st₂ : MergeState)
    (removed : List String) : Env :=
  let ns₂ := ns.filter (fun p => !(removed.contains p.1))
  let cid := env.classes.length
  let funcs₂ := (definedAbstract env ns).foldl
    (fun fs s =>
      match fs[s]? with
      | none => fs
      | some fo => fs.set s { fo with declIface := some cid })
    env.funcs
  { funcs := funcs₂,
    classes := env.classes ++
      [{ cname := newName, bases := bases, namespaceAttrs := ns₂,
         specs := specs₂, registry := st₂.reg }] }

/-- InterfaceMeta.__new__ (interface.py lines 13-108), composed from the
pieces above in source order: compute the specification set, merge the
bases' registries, consume markers, fail on a non-empty
`multiple_overrides` list (line 85), fail when `concrete` is set and
specifications remain (line 97), else publish the finalized class. -/
def interfaceMetaNew (env : Env) (newName : String) (bases : List Nat)
    (ns : List (String × Nat)) (concrete : Bool) : Except PyError (Env × Nat) :=
  match consumeMarkers env newName ns (computedSpecs env bases ns) (mergedState env bases) [] with
  | .error e => .error e
  | .ok (specs₂, st₂, removed) =>
    if st₂.mo ≠ [] then .error (.typeError (conflictMsg env st₂.mo newName))
    else if concrete = true ∧ specs₂ ≠ [] then
      .error (.typeError (incompleteMsg env newName specs₂))
    else
      .ok (finalizeEnv env newName bases ns specs₂ st₂ removed, env.classes.length)

/-- The value cast produces: the instance itself (identity lambda,
line 118) or an ExplicitImplementation view over one interface entry. -/
inductive CastKind where
  | identityCast
  | explicitView (mapping : List (Nat × Nat))
deriving DecidableEq

/-- The argument of `as_interface_type`: an InterfaceMeta class, or some
other value (rejected by the `isinstance`/`issubclass` guard, line 111). -/
inductive PyVal where
  | ofClass (cid : Nat)
  | other (txt : String)
deriving DecidableEq

/-- InterfaceMeta.as_interface_type, lines 110-123: reject non-interface
arguments, then non-subtypes; return the identity cast for an interface
with no outstanding specifications; reject a missing registry entry; else
hand back the entry's identity-to-implementation mapping. -/
def as_interface_type (env : Env) (clsId : Nat) (ifaceV : PyVal) : Except PyError CastKind :=
  match ifaceV with
  | .other t => .error (.typeError (expectedIfaceMsg t))
  | .ofClass ifaceId =>
    match env.classes[ifaceId]?, env.classes[clsId]? with
    | some iface, some cls =>
      if issubclassB env clsId ifaceId = false then
        .error (.typeError (notImplMsg cls.cname iface.cname))
      else if iface.specs = [] then .ok .identityCast
      else
        match List.lookup ifaceId cls.registry with
        | some mapping => .ok (.explicitView mapping)
        | none => .error (.typeError (notImplMsg cls.cname iface.cname))
    | _, _ => .error (.typeError (expectedIfaceMsg "unknown"))

/-- ExplicitImplementation.__getattr__, lines 129-141: resolve the name on
the interface type (absence re-raises the AttributeError); a specification
carrying `__declaring_interface__` is looked up in the bound mapping
(absence is the missing-explicit-implementation TypeError); anything else
delegates to plain attribute access on the underlying instance. -/
def explicitImplementationGetattr (env : Env) (clsId ifaceId : Nat)
    (mapping : List (Nat × Nat)) (attr : String) : Except PyError Nat :=
  match classGetattr env ifaceId attr with
  | none => .error (.attributeError attr)
  | some specId =>
    match declIfaceOfD env specId with
    | some _ =>
      match List.lookup specId mapping with
      | some implId => .ok implId
      | none =>
        .error (.typeError (missingImplMsg (cnameOf env clsId) attr (cnameOf env ifaceId)))
    | none => getattrOnInstance env clsId attr

/-- Member access through the result of a cast: the identity cast is the
instance itself, the view dispatches through __getattr__. -/
def castAccess (env : Env) (clsId ifaceId : Nat) (k : CastKind) (attr : String) :
    Except PyError Nat :=
  match k with
  | .identityCast => getattrOnInstance env clsId attr
  | .explicitView mapping => explicitImplementationGetattr env clsId ifaceId mapping attr

/-! Helper lemmas about the construction pieces. -/

/-- Membership in the inherited-specification accumulator (lines 14-19):
an identity is accumulated exactly when some base's specification set
holds it (or it was in the initial accumulator). -/
theorem mem_foldl_specs (env : Env) (l : List Nat) (init : List Nat) (a : Nat) :
    a ∈ l.foldl (fun acc b => acc ++ specsOf env b) init ↔
      a ∈ init ∨ ∃ b ∈ l, a ∈ specsOf env b := by
  induction l generalizing init with
  | nil => simp
  | cons x xs ih =>
    rw [List.foldl_cons, ih]
    constructor
    · rintro (h | ⟨b, hb, hbs⟩)
      · rcases List.mem_append.mp h with h | h
        · exact Or.inl h
        · exact Or.inr ⟨x, List.mem_cons_self x xs, h⟩
      · exact Or.inr ⟨b, List.mem_cons_of_mem x hb, hbs⟩
    · rintro (h | ⟨b, hb, hbs⟩)
      · exact Or.inl (List.mem_append.mpr (Or.inl h))
      · rcases List.mem_cons.mp hb with rfl | hb
        · exact Or.inl (List.mem_append.mpr (Or.inr hbs))
        · exact Or.inr ⟨b, hb, hbs⟩

/-- A body without implementation markers passes through the marker
consumption loop (lines 58-83) untouched. -/
theorem consumeMarkers_no_markers (env : Env) (newName : String)
    (ns : List (String × Nat)) (specs : List Nat) (st : MergeState) (removed : List String)
    (h : ∀ p ∈ ns, ((env.funcs[p.2]?).map FuncObj.implFor).getD none = none) :
    consumeMarkers env newName ns specs st removed = .ok (specs, st, removed) := by
  induction ns with
  | nil => rfl
  | cons p rest ih =>
    have hp : ((env.funcs[p.2]?).map FuncObj.implFor).getD none = none :=
      h p (List.mem_cons_self p rest)
    have hrest : ∀ q ∈ rest, ((env.funcs[q.2]?).map FuncObj.implFor).getD none = none :=
      fun q hq => h q (List.mem_cons_of_mem p hq)
    obtain ⟨pn, pf⟩ := p
    rw [consumeMarkers.eq_2]
    cases hf : env.funcs[pf]? with
    | none => exact ih hrest
    | some fo =>
      rw [hf] at hp
      simp only [Option.map_some', Option.getD_some] at hp
      simp only [hp]
      exact ih hrest

/-- Whether one character list starts with another. -/
def charPrefixB : List Char → List Char → Bool
  | [], _ => true
  | _ :: _, [] => false
  | a :: as, b :: bs => a == b && charPrefixB as bs

/-- Whether the needle occurs anywhere in the haystack. -/
def charInfixB (needle : List Char) : List Char → Bool
  | [] => charPrefixB needle []
  | c :: rest => charPrefixB needle (c :: rest) || charInfixB needle rest

/-- Whether a message string mentions a name. -/
def strMentions (hay needle : String) : Bool :=
  charInfixB needle.toList hay.toList

/-! Concrete scenarios.  Class ids are allocated in construction order,
starting from the root `Interface` class at id 0; function ids index the
scenario's initial function store. -/

/-- C1 scenario functions: the abstract `m` of IBase and three candidate
implementations. -/
def c1Funcs : List FuncObj :=
  [⟨"as_interface", false, none, none⟩, ⟨"m", true, none, none⟩,
   ⟨"m_left_impl", false, none, none⟩, ⟨"m_right_impl", false, none, none⟩,
   ⟨"m_again_impl", false, none, none⟩]

/-- C1 scenario: IBase declares `m`; ILeft and IRight each implement it
via `implements(IBase.m)`.  Returns the store and the ids of ILeft, IRight. -/
def c1Prefix : Except PyError (Env × Nat × Nat) := do
  let r ← interfaceMetaNew ⟨c1Funcs, []⟩ "Interface" [] [("as_interface", 0)] false
  let b ← interfaceMetaNew r.1 "IBase" [r.2] [("m", 1)] false
  let l ← interfaceMetaNew (implements b.1 1 2).1 "ILeft" [b.2] [("m_left_impl", 2)] false
  let rr ← interfaceMetaNew (implements l.1 1 3).1 "IRight" [b.2] [("m_right_impl", 3)] false
  return (rr.1, l.2, rr.2)

/-- C1: class C(ILeft, IRight) with an empty body, inheriting the two
conflicting implementations of `m`. -/
def c1Diamond : Except PyError (Env × Nat) := do
  let p ← c1Prefix
  interfaceMetaNew p.1 "C" [p.2.1, p.2.2] [] false

/-- C1: class C2(ILeft, IRight) that tries to re-implement `m` in its
own body. -/
def c1Reimpl : Except PyError (Env × Nat) := do
  let p ← c1Prefix
  interfaceMetaNew (implements p.1 1 4).1 "C2" [p.2.1, p.2.2] [("m_again_impl", 4)] false

/-- C2 scenario functions. -/
def c2Funcs : List FuncObj :=
  [⟨"as_interface", false, none, none⟩, ⟨"m", true, none, none⟩,
   ⟨"base_implementation", false, none, none⟩]

/-- C2 scenario: the diamond IBase / ILeft / IRight / C with C
implementing `m` once via `implements(IBase.m)`; the triple is the
result of accessing `m` through the IBase, ILeft and IRight casts. -/
def c2Access : Except PyError (Except PyError Nat × Except PyError Nat × Except PyError Nat) := do
  let r ← interfaceMetaNew ⟨c2Funcs, []⟩ "Interface" [] [("as_interface", 0)] false
  let b ← interfaceMetaNew r.1 "IBase" [r.2] [("m", 1)] false
  let l ← interfaceMetaNew b.1 "ILeft" [b.2] [] false
  let rr ← interfaceMetaNew l.1 "IRight" [b.2] [] false
  let c ← interfaceMetaNew (implements rr.1 1 2).1 "C" [l.2, rr.2] [("base_implementation", 2)] false
  let e := c.1
  let kB ← as_interface_type e c.2 (.ofClass b.2)
  let kL ← as_interface_type e c.2 (.ofClass l.2)
  let kR ← as_interface_type e c.2 (.ofClass rr.2)
  return (castAccess e c.2 b.2 kB "m", castAccess e c.2 l.2 kL "m", castAccess e c.2 rr.2 kR "m")

/-- C4 scenario functions. -/
def c4Funcs : List FuncObj :=
  [⟨"as_interface", false, none, none⟩, ⟨"m", true, none, none⟩,
   ⟨"m_left_impl", false, none, none⟩]

/-- C4 scenario: IBase declares `m`; ILeft implements it, IRight merely
extends IBase.  Returns the store and the ids of ILeft, IRight. -/
def c4Prefix : Except PyError (Env × Nat × Nat) := do
  let r ← interfaceMetaNew ⟨c4Funcs, []⟩ "Interface" [] [("as_interface", 0)] false
  let b ← interfaceMetaNew r.1 "IBase" [r.2] [("m", 1)] false
  let l ← interfaceMetaNew (implements b.1 1 2).1 "ILeft" [b.2] [("m_left_impl", 2)] false
  let rr ← interfaceMetaNew l.1 "IRight" [b.2] [] false
  return (rr.1, l.2, rr.2)

/-- The C4 scenario store written out (the value `c4Prefix` computes):
`m` is function 1 (declared by IBase, class 1), its implementation is
function 2, registered in ILeft's registry under IBase. -/
def c4Env : Env :=
  { funcs := [⟨"as_interface", false, none, none⟩, ⟨"m", true, none, some 1⟩,
              ⟨"m_left_impl", false, some 1, none⟩],
    classes := [⟨"Interface", [], [("as_interface", 0)], [], []⟩,
                ⟨"IBase", [0], [("m", 1)], [1], []⟩,
                ⟨"ILeft", [1], [], [], [(1, [(1, 2)])]⟩,
                ⟨"IRight", [1], [], [1], [(1, [])]⟩] }

/-- The hand-written C4 store is exactly what the construction chain
produces. -/
theorem c4Env_is_c4Prefix : c4Prefix = .ok (c4Env, 2, 3) := by decide

/-- C5 scenario functions. -/
def c5Funcs : List FuncObj :=
  [⟨"as_interface", false, none, none⟩, ⟨"foo", true, none, none⟩,
   ⟨"foo_impl1", false, none, none⟩, ⟨"foo_impl2", false, none, none⟩]

/-- C5 scenario: class D(IFoo) whose body carries two markers targeting
IFoo.foo. -/
def c5Chain : Except PyError (Env × Nat) := do
  let r ← interfaceMetaNew ⟨c5Funcs, []⟩ "Interface" [] [("as_interface", 0)] false
  let f ← interfaceMetaNew r.1 "IFoo" [r.2] [("foo", 1)] false
  let e₂ := (implements (implements f.1 1 2).1 1 3).1
  interfaceMetaNew e₂ "D" [f.2] [("foo_impl1", 2), ("foo_impl2", 3)] false

/-- C6 counterexample store: two unrelated interfaces that both carry the
class name "A" (as same-named classes from two modules would). -/
def c6CexEnv : Env :=
  { funcs := [⟨"as_interface", false, none, none⟩, ⟨"f", true, none, some 1⟩,
              ⟨"g", true, none, some 2⟩],
    classes := [⟨"Interface", [], [("as_interface", 0)], [], []⟩,
                ⟨"A", [0], [("f", 1)], [1], []⟩,
                ⟨"A", [0], [("g", 2)], [2], []⟩] }

/-- C6 witness store: E(IFoo) fully implements IFoo; IBar is unrelated. -/
def c6Env : Env :=
  { funcs := [⟨"as_interface", false, none, none⟩, ⟨"foo", true, none, some 1⟩,
              ⟨"bar", true, none, some 2⟩, ⟨"foo_impl", false, some 1, none⟩],
    classes := [⟨"Interface", [], [("as_interface", 0)], [], []⟩,
                ⟨"IFoo", [0], [("foo", 1)], [1], []⟩,
                ⟨"IBar", [0], [("bar", 2)], [2], []⟩,
                ⟨"E", [1], [], [], [(1, [(1, 3)])]⟩] }

/-- C7 witness store: an interface with no abstract members and a
concrete subclass. -/
def c7Env : Env :=
  { funcs := [⟨"as_interface", false, none, none⟩, ⟨"ping", false, none, none⟩],
    classes := [⟨"Interface", [], [("as_interface", 0)], [], []⟩,
                ⟨"IEmpty", [0], [("ping", 1)], [], []⟩,
                ⟨"Concrete", [1], [], [], []⟩] }

/-- C8 witness store: IWithConcreteMethod has abstract `abstract_method`
(function 1) and plain `concrete_method` (function 2); Concrete overrides
`concrete_method` with function 4, SimpleImplementation does not. -/
def c8Env : Env :=
  { funcs := [⟨"as_interface", false, none, none⟩,
              ⟨"abstract_method", true, none, some 1⟩,
              ⟨"concrete_method", false, none, none⟩,
              ⟨"abstract_method_impl", false, some 1, none⟩,
              ⟨"concrete_method", false, none, none⟩],
    classes := [⟨"Interface", [], [("as_interface", 0)], [], []⟩,
                ⟨"IWithConcreteMethod", [0],
                  [("abstract_method", 1), ("concrete_method", 2)], [1], []⟩,
                ⟨"Concrete", [1], [("concrete_method", 4)], [], [(1, [(1, 3)])]⟩,
                ⟨"SimpleImplementation", [1], [], [], [(1, [(1, 3)])]⟩] }

/-- C9 witness store: a root and one interface with an abstract `foo`. -/
def c9Env : Env :=
  { funcs := [⟨"as_interface", false, none, none⟩, ⟨"foo", true, none, some 1⟩],
    classes := [⟨"Interface", [], [("as_interface", 0)], [], []⟩,
                ⟨"IFoo", [0], [("foo", 1)], [1], []⟩] }

/-- The store after defining `class INew(IFoo): pass` over `c9Env`. -/
def c9After : Env :=
  { funcs := c9Env.funcs,
    classes := c9Env.classes ++ [⟨"INew", [1], [], [1], [(1, [])]⟩] }

/-- C3 witness store: IBase declares `m`; ILeft adds abstract `n`;
IRight merely extends IBase (a diamond of pure interfaces). -/
def c3Env : Env :=
  { funcs := [⟨"as_interface", false, none, none⟩, ⟨"m", true, none, some 1⟩,
              ⟨"n", true, none, some 2⟩],
    classes := [⟨"Interface", [], [("as_interface", 0)], [], []⟩,
                ⟨"IBase", [0], [("m", 1)], [1], []⟩,
                ⟨"ILeft", [1], [("n", 2)], [1, 2], [(1, [])]⟩,
                ⟨"IRight", [1], [], [1], [(1, [])]⟩] }

/-- C10 witness store: an abstract `foo` and an undecorated `foo_impl`. -/
def c10Env : Env :=
  { funcs := [⟨"foo", true, none, some 1⟩, ⟨"foo_impl", false, none, none⟩],
    classes := [] }

/-! Claim theorems. -/

/-- C1: the claim says a cross-base conflict on one identity must fail
construction with a conflicting-override error unless the new body
re-implements the identity, in which case construction succeeds with the
new implementation.  The code does neither: on the conflict input
(IBase declares m; ILeft and IRight each register a different
implementation; C(ILeft, IRight) has an empty body) construction
succeeds and the implementation merged from the later base silently
overwrites the earlier one (C's registry maps identity 1, IBase.m, to
function 3, m_right_impl); and a deliberate re-implementation in the
body (C2) is rejected with the unknown-target TypeError, because the
identity is no longer in the outstanding set. -/
theorem c1_collision_silently_overwritten :
    (c1Diamond.map (fun p => (p.2,
        List.lookup 1 ((List.lookup 1 (registryOf p.1 p.2)).getD [])))) = .ok (4, some 3) ∧
    c1Reimpl = .error (.typeError (unknownTargetMsg "m_again_impl" "m" "C2")) := by
  exact ⟨by decide, by decide⟩

/-- C2: in the diamond (IBase declares m; ILeft, IRight extend IBase;
C(ILeft, IRight) implements m once via implements(IBase.m)), casting to
IBase and accessing m yields the registered implementation (function 2),
while casting to ILeft or IRight and accessing m raises the
missing-explicit-implementation TypeError, because the implementation is
registered only under the declaring interface IBase. -/
theorem c2_diamond_cast :
    c2Access = .ok (.ok 2,
      .error (.typeError (missingImplMsg "C" "m" "ILeft")),
      .error (.typeError (missingImplMsg "C" "m" "IRight"))) := by decide

/-- C3: for an interface body that carries no implementation markers (a
pure interface declaration) and whose base merge flags no overrides,
construction succeeds and the stored specification set of the new type
is exactly the union of the bases' specification sets with the body's
newly declared abstract members — no identity lost, none duplicated. -/
theorem c3_required_identities_union (env : Env) (newName : String) (bases : List Nat)
    (ns : List (String × Nat))
    (hmark : ∀ p ∈ ns, ((env.funcs[p.2]?).map FuncObj.implFor).getD none = none)
    (hmo : (mergedState env bases).mo = []) :
    interfaceMetaNew env newName bases ns false
      = .ok (finalizeEnv env newName bases ns (computedSpecs env bases ns)
               (mergedState env bases) [], env.classes.length) ∧
    (specsOf (finalizeEnv env newName bases ns (computedSpecs env bases ns)
        (mergedState env bases) []) env.classes.length).Nodup ∧
    ∀ g, g ∈ specsOf (finalizeEnv env newName bases ns (computedSpecs env bases ns)
        (mergedState env bases) []) env.classes.length ↔
      ((∃ b ∈ bases, g ∈ specsOf env b) ∨ g ∈ definedAbstract env ns) := by
  have hspec : specsOf (finalizeEnv env newName bases ns (computedSpecs env bases ns)
      (mergedState env bases) []) env.classes.length = computedSpecs env bases ns := by
    unfold finalizeEnv specsOf
    simp [List.getElem?_concat_length]
  refine ⟨?_, ?_, ?_⟩
  · unfold interfaceMetaNew
    rw [consumeMarkers_no_markers env newName ns _ _ _ hmark]
    simp [hmo]
  · rw [hspec]
    exact List.nodup_dedup _
  · intro g
    rw [hspec]
    unfold computedSpecs
    rw [List.mem_dedup, List.mem_append, mem_foldl_specs]
    simp

/-- C3 witness: the pure-interface diamond IDiamond(ILeft, IRight) over
IBase, evaluated concretely. -/
theorem c3_required_identities_union_witness :
    interfaceMetaNew c3Env "IDiamond" [2, 3] [] false
      = .ok (finalizeEnv c3Env "IDiamond" [2, 3] [] (computedSpecs c3Env [2, 3] [])
               (mergedState c3Env [2, 3]) [], c3Env.classes.length) :=
  (c3_required_identities_union c3Env "IDiamond" [2, 3] [] (by decide) (by decide)).1

/-- C4 counterexample: in c4Env, ILeft has implemented IBase.m (identity 1
maps to function 2 under IBase in the merged registry) and m is the only
identity transitively inherited by C(ILeft, IRight) — yet constructing C
with the concrete qualifier fails, because IRight still lists the
identity as outstanding.  The non-concrete construction of the very same
class succeeds.  So construction success is not equivalent to every
inherited identity having a registered implementation under its
declaring interface. -/
theorem c4_counterexample :
    interfaceMetaNew c4Env "C" [2, 3] [] true
      = .error (.typeError (incompleteMsg c4Env "C" [1])) ∧
    List.lookup 1 ((List.lookup 1 (mergedState c4Env [2, 3]).reg).getD []) = some 2 ∧
    (interfaceMetaNew c4Env "C" [2, 3] [] false).map Prod.snd = .ok 4 := by
  exact ⟨by decide, by decide, by decide⟩

/-- C4 amended: constructing C with the concrete qualifier succeeds iff
the outstanding set left after marker consumption — the union of the
bases' stored outstanding specification sets minus the identities
implemented by the body's own markers — is empty; when it is not,
construction fails with the TypeError listing the names of the remaining
identities. -/
theorem c4_amended_outstanding_iff (env : Env) (newName : String) (bases : List Nat)
    (ns : List (String × Nat)) (specs₂ : List Nat) (st₂ : MergeState) (removed : List String)
    (h₁ : consumeMarkers env newName ns (computedSpecs env bases ns) (mergedState env bases) []
            = .ok (specs₂, st₂, removed))
    (h₂ : st₂.mo = []) :
    ((interfaceMetaNew env newName bases ns true).toOption.isSome = true ↔ specs₂ = []) ∧
    (specs₂ ≠ [] → interfaceMetaNew env newName bases ns true
        = .error (.typeError (incompleteMsg env newName specs₂))) := by
  unfold interfaceMetaNew
  rw [h₁]
  rcases eq_or_ne specs₂ [] with hs | hs
  · subst hs
    simp [h₂, Except.toOption]
  · simp [h₂, hs, Except.toOption]

/-- C4 amended witness: C(ILeft, IRight, concrete=True) over c4Env, where
the outstanding set after marker consumption is the singleton of IBase.m. -/
theorem c4_amended_outstanding_iff_witness :
    ((interfaceMetaNew c4Env "C" [2, 3] [] true).toOption.isSome = true ↔ ([1] : List Nat) = []) ∧
    (([1] : List Nat) ≠ [] → interfaceMetaNew c4Env "C" [2, 3] [] true
        = .error (.typeError (incompleteMsg c4Env "C" [1]))) :=
  c4_amended_outstanding_iff c4Env "C" [2, 3] [] [1] ⟨[(1, [(1, 2)]), (3, [])], []⟩ []
    (by decide) (by decide)

/-- C5 counterexample: with two markers targeting IFoo.foo in one body,
construction of D(IFoo) raises the unknown-target TypeError for the
second marker — after the first marker removed the identity from the
outstanding set — and that message does not mention the first
implementing member at all, so the raised error does not name both
implementing members. -/
theorem c5_counterexample :
    c5Chain = .error (.typeError (unknownTargetMsg "foo_impl2" "foo" "D")) ∧
    strMentions (unknownTargetMsg "foo_impl2" "foo" "D") "foo_impl1" = false := by
  exact ⟨by decide, by decide⟩

/-- C5 amended: when a class body contains two implementation markers
targeting the same abstract-member identity, construction raises a
TypeError naming the second (duplicate) implementing member and the
targeted abstract method, reporting that the target is not an abstract
method of any base interface. -/
theorem c5_amended_duplicate_marker :
    c5Chain = .error (.typeError (unknownTargetMsg "foo_impl2" "foo" "D")) := by decide

/-- C6 counterexample: in c6CexEnv class 1 is a subtype of itself, has a
non-empty specification set and no registry entry for itself, so the
cast hits the missing-registry-entry condition; class 2 (also named "A")
is not a subtype of class 1, so its cast hits the subtype-failure
condition.  Both produce the identical TypeError value, so the
missing-entry failure is not a distinct error. -/
theorem c6_counterexample :
    issubclassB c6CexEnv 1 1 = true ∧ specsOf c6CexEnv 1 ≠ [] ∧
    List.lookup 1 (registryOf c6CexEnv 1) = none ∧
    as_interface_type c6CexEnv 1 (.ofClass 1) = .error (.typeError (notImplMsg "A" "A")) ∧
    issubclassB c6CexEnv 2 1 = false ∧
    as_interface_type c6CexEnv 2 (.ofClass 1) = .error (.typeError (notImplMsg "A" "A")) := by
  refine ⟨by decide, by decide, by decide, by decide, by decide, by decide⟩

/-- C6 amended: the cast distinguishes the two failure conditions by
separate checks — a failed subtype test is rejected first; otherwise,
when the interface still has required identities and the class registry
has no entry for it, the cast also fails — but both failures raise a
TypeError with the same message, built from the class and interface
names, so the two errors are not distinct values. -/
theorem c6_amended_two_checks (env : Env) (clsId ifaceId : Nat)
    (hc : (env.classes[clsId]?).isSome = true) (hi : (env.classes[ifaceId]?).isSome = true) :
    (issubclassB env clsId ifaceId = false →
      as_interface_type env clsId (.ofClass ifaceId)
        = .error (.typeError (notImplMsg (cnameOf env clsId) (cnameOf env ifaceId)))) ∧
    (issubclassB env clsId ifaceId = true → specsOf env ifaceId ≠ [] →
      List.lookup ifaceId (registryOf env clsId) = none →
      as_interface_type env clsId (.ofClass ifaceId)
        = .error (.typeError (notImplMsg (cnameOf env clsId) (cnameOf env ifaceId)))) := by
  obtain ⟨cls, hcls⟩ := Option.isSome_iff_exists.mp hc
  obtain ⟨iface, hif⟩ := Option.isSome_iff_exists.mp hi
  have ecn : cnameOf env clsId = cls.cname := by unfold cnameOf; rw [hcls]; rfl
  have ein : cnameOf env ifaceId = iface.cname := by unfold cnameOf; rw [hif]; rfl
  have esp : specsOf env ifaceId = iface.specs := by unfold specsOf; rw [hif]; rfl
  have erg : registryOf env clsId = cls.registry := by unfold registryOf; rw [hcls]; rfl
  rw [ecn, ein, esp, erg]
  constructor
  · intro hsub
    simp [as_interface_type, hif, hcls, hsub]
  · intro hsub hspec hlook
    simp [as_interface_type, hif, hcls, hsub, hspec, hlook]

/-- C6 amended witness: E(IFoo) does not list IBar among its bases, so
casting it to IBar takes the subtype-failure branch; the other branch's
conclusion is instantiated vacuously at the same input. -/
theorem c6_amended_two_checks_witness :
    (issubclassB c6Env 3 2 = false →
      as_interface_type c6Env 3 (.ofClass 2)
        = .error (.typeError (notImplMsg (cnameOf c6Env 3) (cnameOf c6Env 2)))) ∧
    (issubclassB c6Env 3 2 = true → specsOf c6Env 2 ≠ [] →
      List.lookup 2 (registryOf c6Env 3) = none →
      as_interface_type c6Env 3 (.ofClass 2)
        = .error (.typeError (notImplMsg (cnameOf c6Env 3) (cnameOf c6Env 2)))) :=
  c6_amended_two_checks c6Env 3 2 (by decide) (by decide)

/-- C7: casting any instance whose class is a declared subtype of an
interface with an empty specification set returns the identity cast (the
instance itself, line 118), and member access through that cast result
is plain attribute access on the instance. -/
theorem c7_identity_cast (env : Env) (clsId ifaceId : Nat)
    (hc : (env.classes[clsId]?).isSome = true) (hi : (env.classes[ifaceId]?).isSome = true)
    (hsub : issubclassB env clsId ifaceId = true)
    (hempty : specsOf env ifaceId = []) :
    as_interface_type env clsId (.ofClass ifaceId) = .ok .identityCast ∧
    ∀ attr, castAccess env clsId ifaceId .identityCast attr = getattrOnInstance env clsId attr := by
  obtain ⟨cls, hcls⟩ := Option.isSome_iff_exists.mp hc
  obtain ⟨iface, hif⟩ := Option.isSome_iff_exists.mp hi
  have esp : iface.specs = [] := by
    unfold specsOf at hempty
    rw [hif] at hempty
    exact hempty
  constructor
  · simp [as_interface_type, hif, hcls, hsub, esp]
  · intro attr
    rfl

/-- C7 witness: Concrete(IEmpty) cast to the empty interface IEmpty. -/
theorem c7_identity_cast_witness :
    as_interface_type c7Env 2 (.ofClass 1) = .ok .identityCast ∧
    castAccess c7Env 2 1 .identityCast "ping" = getattrOnInstance c7Env 2 "ping" :=
  ⟨(c7_identity_cast c7Env 2 1 (by decide) (by decide) (by decide) (by decide)).1,
   (c7_identity_cast c7Env 2 1 (by decide) (by decide) (by decide) (by decide)).2 "ping"⟩

/-- C8: when the name resolves on the interface type to an attribute that
carries no declaring-interface tag (a non-abstract member), view access
delegates to plain attribute access on the underlying instance, for any
bound mapping — no explicit-implementation registration is consulted. -/
theorem c8_concrete_passthrough (env : Env) (clsId ifaceId : Nat)
    (mapping : List (Nat × Nat)) (attr : String) (specId : Nat)
    (h₁ : classGetattr env ifaceId attr = some specId)
    (h₂ : declIfaceOfD env specId = none) :
    explicitImplementationGetattr env clsId ifaceId mapping attr
      = getattrOnInstance env clsId attr := by
  simp only [explicitImplementationGetattr, h₁, h₂]

/-- C8 witness: `concrete_method` through the IWithConcreteMethod view —
Concrete's own override (function 4) wins on Concrete, while
SimpleImplementation falls back to the interface's default (function 2). -/
theorem c8_concrete_passthrough_witness :
    explicitImplementationGetattr c8Env 2 1 [(1, 3)] "concrete_method"
      = getattrOnInstance c8Env 2 "concrete_method" ∧
    getattrOnInstance c8Env 2 "concrete_method" = .ok 4 ∧
    explicitImplementationGetattr c8Env 3 1 [(1, 3)] "concrete_method"
      = getattrOnInstance c8Env 3 "concrete_method" ∧
    getattrOnInstance c8Env 3 "concrete_method" = .ok 2 :=
  ⟨c8_concrete_passthrough c8Env 2 1 [(1, 3)] "concrete_method" 2 (by decide) (by decide),
   by decide,
   c8_concrete_passthrough c8Env 3 1 [(1, 3)] "concrete_method" 2 (by decide) (by decide),
   by decide⟩

/-- C9: a successful type construction never changes any pre-existing
class object: for every already-allocated class id (in particular every
base), its stored specification set and implementation registry —
including each inner identity-to-implementation mapping, which is part
of the stored class value — are the same before and after.  The merge
builds fresh dicts and only a new class is appended to the store. -/
theorem c9_frame_preservation (env : Env) (newName : String) (bases : List Nat)
    (ns : List (String × Nat)) (concrete : Bool) (envN : Env) (cid : Nat)
    (h : interfaceMetaNew env newName bases ns concrete = .ok (envN, cid))
    (c : Nat) (hlt : c < env.classes.length) :
    envN.classes[c]? = env.classes[c]? := by
  unfold interfaceMetaNew at h
  cases hcm : consumeMarkers env newName ns (computedSpecs env bases ns)
      (mergedState env bases) [] with
  | error e =>
    rw [hcm] at h
    exact absurd h (by simp)
  | ok t =>
    obtain ⟨specs₂, st₂, removed⟩ := t
    rw [hcm] at h
    dsimp only at h
    by_cases hmo : st₂.mo ≠ []
    · rw [if_pos hmo] at h
      exact absurd h (by simp)
    · rw [if_neg hmo] at h
      by_cases hcc : concrete = true ∧ specs₂ ≠ []
      · rw [if_pos hcc] at h
        exact absurd h (by simp)
      · rw [if_neg hcc] at h
        simp only [Except.ok.injEq, Prod.mk.injEq] at h
        obtain ⟨h₁, _⟩ := h
        subst h₁
        unfold finalizeEnv
        simpa using List.getElem?_append_left hlt

/-- C9 witness: defining INew(IFoo) over c9Env leaves IFoo (class 1)
untouched. -/
theorem c9_frame_preservation_witness : c9After.classes[1]? = c9Env.classes[1]? :=
  c9_frame_preservation c9Env "INew" [1] [] false c9After 2 (by decide) 1 (by decide)

/-- C10: the implements marker returns the very same callable (the same
function id), merely setting its explicit-implementation-for attribute
in place: the stored function object keeps its name, abstractness flag
and declaring interface, only implFor changes; every other function
object and all classes are untouched — no wrapper object is created. -/
theorem c10_marker_in_place (env : Env) (m g : Nat) (fo : FuncObj)
    (hf : env.funcs[g]? = some fo) :
    (implements env m g).2 = g ∧
    (implements env m g).1.funcs[g]? = some { fo with implFor := some m } ∧
    (implements env m g).1.classes = env.classes ∧
    ∀ j, j ≠ g → (implements env m g).1.funcs[j]? = env.funcs[j]? := by
  have hlt : g < env.funcs.length := by
    rcases List.getElem?_eq_some.mp hf with ⟨hl, _⟩
    exact hl
  unfold implements
  rw [hf]
  refine ⟨rfl, ?_, rfl, ?_⟩
  · exact List.getElem?_set_self hlt
  · intro j hj
    exact List.getElem?_set_ne (Ne.symm hj)

/-- C10 witness: marking function 1 with target 0 in c10Env. -/
theorem c10_marker_in_place_witness :
    (implements c10Env 0 1).2 = 1 ∧
    (implements c10Env 0 1).1.funcs[1]? = some ⟨"foo_impl", false, some 0, none⟩ :=
  ⟨(c10_marker_in_place c10Env 0 1 ⟨"foo_impl", false, none, none⟩ (by decide)).1,
   (c10_marker_in_place c10Env 0 1 ⟨"foo_impl", false, none, none⟩ (by decide)).2.1⟩
